import Mathlib

/-!
Verification of `src/services/fetchVideo.js`: a client-side helper that
validates a YouTube URL, issues HTTP POST requests with bounded retries and
cooperative cancellation, fetches video metadata, and streams a download.

The JavaScript is shallowly embedded: JS values are modelled by `JsValue`
(with JS truthiness), errors by the tagged type `JsError` (mirroring the
error classes plus the built-in errors that actually arise at runtime:
`AbortError` from an aborted fetch and `TypeError` from a transport
failure), and the network by an oracle `FetchEnv` giving the outcome of the
fetch on each attempt.  The retry loop is written with an explicit fuel
argument equal to the number of attempts still allowed.
-/

/-- A JavaScript value, as needed to model the JSON bodies the module
inspects.  Numbers are modelled as integers (no claim depends on floats). -/
inductive JsValue where
  | undefined
  | null
  | bool (b : Bool)
  | num (n : Int)
  | str (s : String)
  | arr (elems : List JsValue)
  | obj (fields : List (String × JsValue))

/-- JS truthiness: `undefined`, `null`, `false`, `0` and `""` are falsy;
every object (including the empty array `[]` and empty object) is truthy. -/
def truthy : JsValue → Bool
  | .undefined => false
  | .null => false
  | .bool b => b
  | .num n => n != 0
  | .str s => s != ""
  | .arr _ => true
  | .obj _ => true

/-- Property access `v.key` on a JS value.  Objects look the key up
(`JSON.parse` keeps the last duplicate key, hence the reversed search);
every other value has no such own property, giving `undefined`. -/
def getField (v : JsValue) (key : String) : JsValue :=
  match v with
  | .obj fields =>
    match fields.reverse.find? (fun p => p.1 == key) with
    | some p => p.2
    | none => .undefined
  | _ => .undefined

/-- Optional chaining `v?.key`: `undefined` when `v` is `null`/`undefined`,
plain property access otherwise. -/
def optChainField (v : JsValue) (key : String) : JsValue :=
  match v with
  | .null => .undefined
  | .undefined => .undefined
  | _ => getField v key

/-- JS `a || b`: `a` when truthy, else `b`. -/
def jsOr (a b : JsValue) : JsValue :=
  if truthy a then a else b

/-- The errors that can flow through the module: the three classes declared
in the source (`NetworkError`, `ApiError`, `ValidationError`) plus the
built-in errors produced by the browser runtime — `AbortError` (a `fetch`
rejected through the abort signal), `TypeError` (a `fetch` transport
failure, or a property access on `undefined`) and the `SyntaxError` of a
failed `JSON.parse` (constructor `parseError` here). -/
inductive JsError where
  | networkError (message : String)
  | apiError (status : Nat) (message : JsValue)
  | validationError (message : String)
  | abortError (message : String)
  | typeError (message : String)
  | parseError (message : String)

/-- The `name` property of each error, as tested by
`error.name === "AbortError"` in the source. -/
def errorName : JsError → String
  | .networkError _ => "NetworkError"
  | .apiError _ _ => "ApiError"
  | .validationError _ => "ValidationError"
  | .abortError _ => "AbortError"
  | .typeError _ => "TypeError"
  | .parseError _ => "SyntaxError"

/-- `error instanceof NetworkError || error instanceof ApiError` — the
retryability test of the source's catch block. -/
def isRetryableError : JsError → Bool
  | .networkError _ => true
  | .apiError _ _ => true
  | _ => false

/-- A resolved `fetch` response: `ok`, `status`, and the result of
`response.json()` on its body (`Except.error` = the body is not JSON, so
`json()` rejects with a `SyntaxError` carrying the given message). -/
structure Response where
  ok : Bool
  status : Nat
  body : Except String JsValue

/-- What one `fetch` call does: resolve with a `Response`, or reject with an
error (an `abortError` when the signal fires mid-flight, a `typeError` on a
transport failure). -/
inductive FetchOutcome where
  | response (r : Response)
  | reject (e : JsError)

/-- The environment of one invocation: whether the abort signal is already
signaled before the call starts (then every `fetch` rejects with
`AbortError` at once, issuing no network call), and otherwise the outcome
of the `fetch` issued on attempt `k` (attempts are numbered from 1). -/
structure FetchEnv where
  preAborted : Bool
  outcome : Nat → FetchOutcome

/-- `errorData` of the source's non-ok branch:
`await response.json().catch(() => null)`. -/
def errorDataOf (r : Response) : JsValue :=
  match r.body with
  | .ok v => v
  | .error _ => .null

/-- The `ApiError` the source throws on a non-ok response:
`new ApiError(response.status, errorData?.message || "Unknown API error")`. -/
def apiErrorOf (r : Response) : JsError :=
  .apiError r.status (jsOr (optChainField (errorDataOf r) "message") (.str "Unknown API error"))

/-- The body of the `try` block on attempt `k` (given the signal was not
already aborted): `fetch`, then throw `ApiError` if `!response.ok`, else
return the response. -/
def attemptResult (env : FetchEnv) (k : Nat) : Except JsError Response :=
  match env.outcome k with
  | .reject e => .error e
  | .response r => if r.ok then .ok r else .error (apiErrorOf r)

/-- What `makeApiRequest` produces: a resolved response, a thrown error, or
`undefined` (the loop ran zero times and the function fell through). -/
inductive RunOutcome where
  | success (r : Response)
  | failure (e : JsError)
  | undefined

/-- The retry loop of `makeApiRequest`, with the count of network calls
issued and of retry delays slept.  `fuel` is the number of attempts still
allowed including the current one, so along the call pattern
`runLoop env 1 retries` we have `fuel = retries - attempt + 1` and the
source's last-attempt test `attempt === retries` is exactly `fuel = 1`
(i.e. the remaining fuel inside the body is `0`).  When the signal is
already aborted, `fetch` rejects immediately with `AbortError` and no
network call is issued; the catch block rethrows it. -/
def runLoop (env : FetchEnv) : Nat → Nat → RunOutcome × Nat × Nat
  | _, 0 => (.undefined, 0, 0)
  | attempt, fuel + 1 =>
    if env.preAborted then
      (.failure (.abortError "The operation was aborted."), 0, 0)
    else
      match attemptResult env attempt with
      | .ok r => (.success r, 1, 0)
      | .error e =>
        if errorName e = "AbortError" then
          (.failure e, 1, 0)
        else if fuel = 0 ∨ isRetryableError e = false then
          (.failure e, 1, 0)
        else
          let res := runLoop env (attempt + 1) fuel
          (res.1, res.2.1 + 1, res.2.2 + 1)

/-- The inner `validateYoutubeUrl` tests the string against
`/^(https?:\/\/)?(www\.)?(youtube\.com|youtu\.be)\/.+$/`.  The three
alternatives of the optional scheme group. -/
def schemeAlts : List String := ["http://", "https://", ""]

/-- The two alternatives of the optional `www.` group. -/
def wwwAlts : List String := ["www.", ""]

/-- The two host alternatives. -/
def hostAlts : List String := ["youtube.com", "youtu.be"]

/-- JS regex `.` (no `s` flag) matches everything except the four line
terminators. -/
def isRegexLineTerm (c : Char) : Bool :=
  c == '\n' || c == '\r' || c == Char.ofNat 0x2028 || c == Char.ofNat 0x2029

/-- `.+$` against the rest of the string (anchored, no `m` flag): nonempty
and free of line terminators. -/
def restMatch (cs : List Char) : Bool :=
  !cs.isEmpty && cs.all (fun c => !isRegexLineTerm c)

/-- One alternative of the anchored regex: the literal prefix
`scheme ++ www ++ host ++ "/"` followed by a `.+$` match. -/
def prefixMatch (sch w h : String) (cs : List Char) : Bool :=
  (sch.toList ++ w.toList ++ h.toList ++ ['/']).isPrefixOf cs
    && restMatch (cs.drop (sch.toList ++ w.toList ++ h.toList ++ ['/']).length)

/-- `youtubeRegex.test(url)`: since every group of the regex has finitely
many alternatives and the pattern is anchored at both ends, the regex
matches iff some combination of alternatives does. -/
def youtubeRegexTest (s : String) : Bool :=
  schemeAlts.any fun sch =>
    wwwAlts.any fun w =>
      hostAlts.any fun h => prefixMatch sch w h s.toList

/-- `validateYoutubeUrl`: throws `ValidationError` unless the regex
matches. -/
def validateYoutubeUrl (url : String) : Except JsError Unit :=
  if youtubeRegexTest url then .ok ()
  else .error (.validationError "Invalid YouTube URL provided.")

/-- `makeApiRequest(endpoint, url, retries, retryDelay, signal)`:
validates the URL (a failure aborts with zero attempts), then runs the
retry loop starting at attempt 1 with `retries` attempts allowed.  The
endpoint string and the delay length do not influence control flow (the
environment already describes the backend reached through the endpoint);
they are kept as arguments for fidelity to the source signature. -/
def makeApiRequest (env : FetchEnv) (endpoint url : String)
    (retries retryDelay : Nat) : RunOutcome × Nat × Nat :=
  match validateYoutubeUrl url with
  | .error e => (.failure e, 0, 0)
  | .ok _ =>
    let _ := endpoint
    let _ := retryDelay
    runLoop env 1 retries

/-- The remapping of `fetchVideoInfo`'s catch block: an `ApiError` with
status 404 or 400 becomes `ValidationError("Video not found or invalid
URL.")`; everything else is rethrown unchanged. -/
def remapInfoError (e : JsError) : JsError :=
  match e with
  | .apiError status _ =>
    if status = 404 ∨ status = 400 then
      .validationError "Video not found or invalid URL."
    else e
  | _ => e

/-- `fetchVideoInfo(url, signal)`: delegates to
`makeApiRequest("/infoVideo", url, 3, 1000, signal)`, parses the body,
rejects a falsy `videoInfo`, `videoInfo.title` or `videoInfo.formats` with
a `ValidationError`, and pushes every error through the catch-block
remapping.  (The `undefined` branch is unreachable for `retries = 3`; if it
were taken, `response.json()` on `undefined` would throw a `TypeError`.) -/
def fetchVideoInfo (env : FetchEnv) (url : String) : Except JsError JsValue :=
  match (makeApiRequest env "/infoVideo" url 3 1000).1 with
  | .undefined => .error (remapInfoError (.typeError "Cannot read properties of undefined"))
  | .failure e => .error (remapInfoError e)
  | .success r =>
    match r.body with
    | .error m => .error (remapInfoError (.parseError m))
    | .ok videoInfo =>
      if truthy videoInfo = false ∨ truthy (getField videoInfo "title") = false
          ∨ truthy (getField videoInfo "formats") = false then
        .error (remapInfoError
          (.validationError "Invalid video info data received from server. Missing required fields."))
      else .ok videoInfo

/-- `downloadVideo(url, signal)`: returns the promise of
`makeApiRequest("/download", url, 3, 1000, signal)` as is. -/
def downloadVideo (env : FetchEnv) (url : String) : RunOutcome × Nat × Nat :=
  makeApiRequest env "/download" url 3 1000

/-!  ## Helper lemmas  -/

/-- The spec's description of an accepted URL ("scheme optional, optional
`www.` prefix, host one of a known set of hosting domains, followed by any
non-empty path"), stated as a decomposition of the string: an optional
scheme, an optional `www.`, a host from the known set, a `/`, and a
non-empty remainder free of line terminators. -/
def HostPattern (s : String) : Prop :=
  ∃ sch w h rest, sch ∈ schemeAlts ∧ w ∈ wwwAlts ∧ h ∈ hostAlts ∧
    s.toList = sch.toList ++ w.toList ++ h.toList ++ '/' :: rest ∧
    rest ≠ [] ∧ ∀ c ∈ rest, isRegexLineTerm c = false

theorem restMatch_iff (cs : List Char) :
    restMatch cs = true ↔ cs ≠ [] ∧ ∀ c ∈ cs, isRegexLineTerm c = false := by
  cases cs <;> simp [restMatch]

theorem youtubeRegexTest_iff (s : String) :
    youtubeRegexTest s = true ↔ HostPattern s := by
  constructor
  · intro hmatch
    simp only [youtubeRegexTest, List.any_eq_true] at hmatch
    obtain ⟨sch, hsch, w, hw, h, hh, hp⟩ := hmatch
    rw [prefixMatch, Bool.and_eq_true, List.isPrefixOf_iff_prefix] at hp
    obtain ⟨⟨rest, hcat⟩, hrest⟩ := hp
    rw [← hcat, List.drop_left, restMatch_iff] at hrest
    refine ⟨sch, w, h, rest, hsch, hw, hh, ?_, hrest.1, hrest.2⟩
    rw [← hcat]
    simp [List.append_assoc]
  · rintro ⟨sch, w, h, rest, hsch, hw, hh, hs, hne, hall⟩
    have hps : s.toList = (sch.toList ++ w.toList ++ h.toList ++ ['/']) ++ rest := by
      rw [hs]; simp [List.append_assoc]
    simp only [youtubeRegexTest, List.any_eq_true]
    refine ⟨sch, hsch, w, hw, h, hh, ?_⟩
    rw [prefixMatch, Bool.and_eq_true, List.isPrefixOf_iff_prefix]
    refine ⟨⟨rest, hps.symm⟩, ?_⟩
    rw [hps, List.drop_left, restMatch_iff]
    exact ⟨hne, hall⟩

theorem retryable_errorName (e : JsError) (h : isRetryableError e = true) :
    ¬(errorName e = "AbortError") := by
  cases e with
  | networkError m => intro hc; exact (by decide : ¬("NetworkError" = "AbortError")) hc
  | apiError s m => intro hc; exact (by decide : ¬("ApiError" = "AbortError")) hc
  | validationError m => simp [isRetryableError] at h
  | abortError m => simp [isRetryableError] at h
  | typeError m => simp [isRetryableError] at h
  | parseError m => simp [isRetryableError] at h

theorem runLoop_calls_le (env : FetchEnv) :
    ∀ fuel attempt, (runLoop env attempt fuel).2.1 ≤ fuel := by
  intro fuel
  induction fuel with
  | zero => intro attempt; simp [runLoop]
  | succ n ih =>
    intro attempt
    simp only [runLoop]
    split
    · simp
    · split
      · simp
      · split
        · simp
        · split
          · simp
          · have := ih (attempt + 1)
            simp only []
            omega

theorem runLoop_ne_undef (env : FetchEnv) :
    ∀ fuel attempt, 1 ≤ fuel → (runLoop env attempt fuel).1 ≠ RunOutcome.undefined := by
  intro fuel
  induction fuel with
  | zero => intro _ h; omega
  | succ n ih =>
    intro attempt _
    simp only [runLoop]
    split
    · simp
    · split
      · simp
      · split
        · simp
        · split
          · simp
          · rename_i hcond
            push_neg at hcond
            have := ih (attempt + 1) (by omega)
            simpa using this

/-- Skipping `j` leading attempts that all fail retryably: the loop behaves
like the loop started `j` attempts later, with `j` more calls and `j` more
sleeps. -/
theorem runLoop_skip (env : FetchEnv) (hpa : env.preAborted = false) :
    ∀ (j attempt fuel : Nat), j < fuel →
      (∀ k, attempt ≤ k → k < attempt + j →
        ∃ e, attemptResult env k = Except.error e ∧ isRetryableError e = true) →
      runLoop env attempt fuel =
        ((runLoop env (attempt + j) (fuel - j)).1,
         (runLoop env (attempt + j) (fuel - j)).2.1 + j,
         (runLoop env (attempt + j) (fuel - j)).2.2 + j) := by
  intro j
  induction j with
  | zero => intro attempt fuel _ _; rfl
  | succ n ih =>
    intro attempt fuel hlt hall
    obtain ⟨f, rfl⟩ : ∃ f, fuel = f + 1 := ⟨fuel - 1, by omega⟩
    obtain ⟨e, he, hre⟩ := hall attempt (Nat.le_refl _) (by omega)
    have hname := retryable_errorName e hre
    have hcond : ¬(f = 0 ∨ isRetryableError e = false) := by
      rintro (h0 | hb)
      · omega
      · rw [hre] at hb; exact Bool.noConfusion hb
    have hstep : runLoop env attempt (f + 1) =
        ((runLoop env (attempt + 1) f).1,
         (runLoop env (attempt + 1) f).2.1 + 1,
         (runLoop env (attempt + 1) f).2.2 + 1) := by
      simp only [runLoop, hpa, he]
      rw [if_neg (by simp), if_neg hname, if_neg hcond]
    have hih := ih (attempt + 1) f (by omega)
      (fun k hk1 hk2 => hall k (by omega) (by omega))
    rw [hstep, hih]
    have h1 : attempt + 1 + n = attempt + (n + 1) := by omega
    have h2 : f - n = f + 1 - (n + 1) := by omega
    rw [h1, h2]
    simp only [Prod.mk.injEq]
    exact ⟨trivial, by omega, by omega⟩

/-- The last allowed attempt (`fuel = 1`, i.e. `attempt === retries`):
whatever error the attempt produces is thrown out of the loop. -/
theorem runLoop_last (env : FetchEnv) (hpa : env.preAborted = false)
    (attempt : Nat) (e : JsError)
    (he : attemptResult env attempt = Except.error e) :
    runLoop env attempt 1 = (.failure e, 1, 0) := by
  simp only [runLoop, hpa, he]
  rw [if_neg (by simp)]
  by_cases hn : errorName e = "AbortError"
  · rw [if_pos hn]
  · rw [if_neg hn]; simp

/-- An attempt whose response is ok short-circuits the loop. -/
theorem runLoop_ok (env : FetchEnv) (hpa : env.preAborted = false)
    (attempt fuel : Nat) (r : Response)
    (hok : attemptResult env attempt = Except.ok r) :
    runLoop env attempt (fuel + 1) = (.success r, 1, 0) := by
  simp [runLoop, hpa, hok]

/-- An attempt on which the fetch rejects with `AbortError` is rethrown at
once, whatever fuel remains. -/
theorem runLoop_aborted (env : FetchEnv) (hpa : env.preAborted = false)
    (attempt fuel : Nat) (m : String)
    (habt : env.outcome attempt = FetchOutcome.reject (.abortError m)) :
    runLoop env attempt (fuel + 1) = (.failure (.abortError m), 1, 0) := by
  have he : attemptResult env attempt = Except.error (.abortError m) := by
    simp [attemptResult, habt]
  simp only [runLoop, hpa, he]
  rw [if_neg (by simp), if_pos (by rw [errorName])]

/-- `makeApiRequest` on a URL accepted by the validator runs the loop from
attempt 1 with `retries` attempts of fuel. -/
theorem makeApiRequest_valid (env : FetchEnv) (endpoint url : String)
    (retries delay : Nat) (hurl : youtubeRegexTest url = true) :
    makeApiRequest env endpoint url retries delay = runLoop env 1 retries := by
  simp [makeApiRequest, validateYoutubeUrl, hurl]

/-- `makeApiRequest` on a URL rejected by the validator throws at once. -/
theorem makeApiRequest_invalid (env : FetchEnv) (endpoint url : String)
    (retries delay : Nat) (hurl : youtubeRegexTest url = false) :
    makeApiRequest env endpoint url retries delay =
      (.failure (.validationError "Invalid YouTube URL provided."), 0, 0) := by
  simp [makeApiRequest, validateYoutubeUrl, hurl]

/-!  ## Claims  -/

/-- The environment of C1's failing input: every fetch rejects with the
transport failure `TypeError("Failed to fetch")`, never an `AbortError`. -/
def envC1 : FetchEnv := ⟨false, fun _ => .reject (.typeError "Failed to fetch")⟩

/-- C1 (code bug): the spec says an attempt failing with an underlying
transport failure is classified as `NetworkError` and retried when not on
the last attempt.  In the code a transport-level `fetch` failure is a
`TypeError`, while the `NetworkError` class is declared but never
constructed, so `error instanceof NetworkError` never holds: on attempt 1
of 3 the transport failure is propagated unchanged after a single network
call, with no retry and no sleep. -/
theorem transport_failure_not_retried :
    makeApiRequest envC1 "/infoVideo" "https://youtu.be/abc" 3 1000 =
      (.failure (.typeError "Failed to fetch"), 1, 0) := rfl

/-- C2: with `maxAttempts ≥ 1`: when every attempt fails with a retryable
kind (`NetworkError` or `ApiError`), exactly `maxAttempts` network calls
occur, `maxAttempts - 1` sleeps are taken, and the error of the final
attempt is propagated; and in every invocation at most `maxAttempts`
network calls occur and the outcome is a success or a propagated error,
never the silent `undefined`. -/
theorem makeApiRequest_retry_exhaustion (env : FetchEnv)
    (endpoint url : String) (retries delay : Nat) (hr : 1 ≤ retries) :
    (env.preAborted = false → youtubeRegexTest url = true →
      ∀ e, attemptResult env retries = Except.error e →
        (∀ k, 1 ≤ k → k ≤ retries →
          ∃ e', attemptResult env k = Except.error e' ∧ isRetryableError e' = true) →
        makeApiRequest env endpoint url retries delay =
          (.failure e, retries, retries - 1))
    ∧ (makeApiRequest env endpoint url retries delay).2.1 ≤ retries
    ∧ (makeApiRequest env endpoint url retries delay).1 ≠ RunOutcome.undefined := by
  refine ⟨?_, ?_, ?_⟩
  · intro hpa hurl e he hall
    rw [makeApiRequest_valid env endpoint url retries delay hurl]
    have hskip := runLoop_skip env hpa (retries - 1) 1 retries (by omega)
      (fun k hk1 hk2 => hall k hk1 (by omega))
    have h1 : 1 + (retries - 1) = retries := by omega
    have h2 : retries - (retries - 1) = 1 := by omega
    rw [h1, h2, runLoop_last env hpa retries e he] at hskip
    rw [hskip]
    simp only [Prod.mk.injEq]
    refine ⟨by trivial, ?_, ?_⟩
    · show 1 + (retries - 1) = retries
      omega
    · show 0 + (retries - 1) = retries - 1
      omega
  · cases h : youtubeRegexTest url with
    | true =>
      rw [makeApiRequest_valid env endpoint url retries delay h]
      exact runLoop_calls_le env retries 1
    | false =>
      rw [makeApiRequest_invalid env endpoint url retries delay h]
      exact Nat.zero_le retries
  · cases h : youtubeRegexTest url with
    | true =>
      rw [makeApiRequest_valid env endpoint url retries delay h]
      exact runLoop_ne_undef env retries 1 hr
    | false =>
      rw [makeApiRequest_invalid env endpoint url retries delay h]
      intro hc
      exact RunOutcome.noConfusion hc

/-- C2's witness environment: every attempt's response is a 500 with a
parsable error body. -/
def envC2 : FetchEnv :=
  ⟨false, fun _ => .response ⟨false, 500, .ok (.obj [("message", .str "server error")])⟩⟩

/-- Witness for C2: three attempts all failing with `ApiError(500, "server
error")` produce exactly 3 calls, 2 sleeps, and propagate the final error;
and the call count is within budget. -/
theorem makeApiRequest_retry_exhaustion_witness :
    makeApiRequest envC2 "/infoVideo" "https://youtu.be/v" 3 1000 =
      (.failure (.apiError 500 (.str "server error")), 3, 2)
    ∧ (makeApiRequest envC2 "/infoVideo" "https://youtu.be/v" 3 1000).2.1 ≤ 3 := by
  have h := makeApiRequest_retry_exhaustion envC2 "/infoVideo" "https://youtu.be/v"
    3 1000 (by omega)
  refine ⟨?_, h.2.1⟩
  exact h.1 rfl rfl (.apiError 500 (.str "server error")) rfl
    (fun k _ _ => ⟨.apiError 500 (.str "server error"), rfl, rfl⟩)

/-- C5: the URL validator returns normally iff the string matches the
accepted video-hosting pattern (optional scheme, optional `www.` prefix,
host in the known set, a `/`, and a non-empty remainder); for every
non-matching string the executor fails with
`ValidationError("Invalid YouTube URL provided.")` having issued zero
network calls and taken zero retry sleeps. -/
theorem validateYoutubeUrl_spec (url : String) :
    (validateYoutubeUrl url = Except.ok () ↔ HostPattern url)
    ∧ (validateYoutubeUrl url ≠ Except.ok () →
        ∀ env endpoint retries delay,
          makeApiRequest env endpoint url retries delay =
            (.failure (.validationError "Invalid YouTube URL provided."), 0, 0)) := by
  constructor
  · rw [← youtubeRegexTest_iff]
    unfold validateYoutubeUrl
    cases h : youtubeRegexTest url <;> simp [h]
  · intro hne env endpoint retries delay
    cases h : youtubeRegexTest url with
    | true => exact absurd (by simp [validateYoutubeUrl, h]) hne
    | false => exact makeApiRequest_invalid env endpoint url retries delay h

/-- C5's witness environment (a server that would answer if reached). -/
def envC5 : FetchEnv := ⟨false, fun _ => .response ⟨true, 200, .ok .null⟩⟩

/-- Witness for C5 at the non-matching string `"not-a-url"`: the executor
fails with the `ValidationError` and zero network calls. -/
theorem validateYoutubeUrl_spec_witness :
    makeApiRequest envC5 "/download" "not-a-url" 3 1000 =
      (.failure (.validationError "Invalid YouTube URL provided."), 0, 0) :=
  (validateYoutubeUrl_spec "not-a-url").2 (fun h => Except.noConfusion h)
    envC5 "/download" 3 1000

/-- C6: cancellation.  (a) If the signal is already aborted before any
attempt starts, the invocation fails with the abort rejection after zero
network calls and zero sleeps.  (b) If the fetch of a reachable attempt
rejects with `AbortError`, that error is propagated unchanged — not
reclassified as Network/Api/Validation — and no further attempts are made
regardless of the remaining budget. -/
theorem makeApiRequest_cancellation (env : FetchEnv) (endpoint url : String)
    (retries delay : Nat) (hurl : youtubeRegexTest url = true)
    (hr : 1 ≤ retries) :
    (env.preAborted = true →
      makeApiRequest env endpoint url retries delay =
        (.failure (.abortError "The operation was aborted."), 0, 0))
    ∧ (env.preAborted = false → ∀ k m, 1 ≤ k → k ≤ retries →
        (∀ i, 1 ≤ i → i < k →
          ∃ e, attemptResult env i = Except.error e ∧ isRetryableError e = true) →
        env.outcome k = FetchOutcome.reject (.abortError m) →
        makeApiRequest env endpoint url retries delay =
          (.failure (.abortError m), k, k - 1)) := by
  constructor
  · intro hpa
    rw [makeApiRequest_valid env endpoint url retries delay hurl]
    obtain ⟨R, rfl⟩ : ∃ R, retries = R + 1 := ⟨retries - 1, by omega⟩
    simp [runLoop, hpa]
  · intro hpa k m hk1 hk hprev habt
    rw [makeApiRequest_valid env endpoint url retries delay hurl]
    have hskip := runLoop_skip env hpa (k - 1) 1 retries (by omega)
      (fun i h1 h2 => hprev i h1 (by omega))
    have h1 : 1 + (k - 1) = k := by omega
    rw [h1] at hskip
    obtain ⟨f, hf⟩ : ∃ f, retries - (k - 1) = f + 1 := ⟨retries - k, by omega⟩
    rw [hf, runLoop_aborted env hpa k f m habt] at hskip
    rw [hskip]
    simp only [Prod.mk.injEq]
    refine ⟨by trivial, ?_, ?_⟩
    · show 1 + (k - 1) = k
      omega
    · show 0 + (k - 1) = k - 1
      omega

/-- C6's witness environment: the signal is aborted before the call. -/
def envC6 : FetchEnv := ⟨true, fun _ => .response ⟨true, 200, .ok .null⟩⟩

/-- Witness for C6: with the signal aborted before any attempt, the
invocation fails with the abort rejection and zero network calls. -/
theorem makeApiRequest_cancellation_witness :
    makeApiRequest envC6 "/download" "https://youtu.be/v" 3 1000 =
      (.failure (.abortError "The operation was aborted."), 0, 0) :=
  (makeApiRequest_cancellation envC6 "/download" "https://youtu.be/v" 3 1000
    rfl (by omega)).1 rfl

/-- C7: if attempts `1..k-1` fail retryably and attempt `k ≤ maxAttempts`
receives a response with a success status, the executor returns that
response on attempt `k`: `k` calls, only the `k - 1` sleeps of the earlier
failures (none for the successful attempt), and the remaining budget is
never used. -/
theorem makeApiRequest_success_short_circuit (env : FetchEnv)
    (endpoint url : String) (retries delay k : Nat) (r : Response)
    (hpa : env.preAborted = false) (hurl : youtubeRegexTest url = true)
    (hk1 : 1 ≤ k) (hk : k ≤ retries)
    (hprev : ∀ i, 1 ≤ i → i < k →
      ∃ e, attemptResult env i = Except.error e ∧ isRetryableError e = true)
    (hok : attemptResult env k = Except.ok r) :
    makeApiRequest env endpoint url retries delay = (.success r, k, k - 1) := by
  rw [makeApiRequest_valid env endpoint url retries delay hurl]
  have hskip := runLoop_skip env hpa (k - 1) 1 retries (by omega)
    (fun i h1 h2 => hprev i h1 (by omega))
  have h1 : 1 + (k - 1) = k := by omega
  rw [h1] at hskip
  obtain ⟨f, hf⟩ : ∃ f, retries - (k - 1) = f + 1 := ⟨retries - k, by omega⟩
  rw [hf, runLoop_ok env hpa k f r hok] at hskip
  rw [hskip]
  simp only [Prod.mk.injEq]
  refine ⟨by trivial, ?_, ?_⟩
  · show 1 + (k - 1) = k
    omega
  · show 0 + (k - 1) = k - 1
    omega

/-- C7's witness environment: the first attempt already succeeds. -/
def envC7 : FetchEnv :=
  ⟨false, fun _ => .response ⟨true, 200, .ok (.obj [("title", .str "X")])⟩⟩

/-- Witness for C7: a success on attempt 1 returns after exactly one call
and zero sleeps. -/
theorem makeApiRequest_success_short_circuit_witness :
    makeApiRequest envC7 "/download" "https://youtu.be/v" 3 1000 =
      (.success ⟨true, 200, .ok (.obj [("title", .str "X")])⟩, 1, 0) :=
  makeApiRequest_success_short_circuit envC7 "/download" "https://youtu.be/v"
    3 1000 1 ⟨true, 200, .ok (.obj [("title", .str "X")])⟩ rfl rfl
    (by omega) (by omega) (fun i hi1 hi2 => by omega) rfl

/-- C9: `downloadVideo` delegates to the executor against the download
endpoint with the default retry parameters (3 attempts, 1000 ms) and
returns its result unchanged: the raw successful response with no parsing,
and every failure exactly as the executor produced it. -/
theorem downloadVideo_delegates (env : FetchEnv) (url : String) :
    downloadVideo env url = makeApiRequest env "/download" url 3 1000 := rfl

/-- C10: with an attempt budget of `0` (less than 1) the retry loop body
never executes: the invocation resolves successfully with `undefined`,
issuing zero network calls, sleeping zero times and raising no error. -/
theorem makeApiRequest_zero_attempts (env : FetchEnv) (endpoint url : String)
    (delay : Nat) (hurl : youtubeRegexTest url = true) :
    makeApiRequest env endpoint url 0 delay = (.undefined, 0, 0) := by
  rw [makeApiRequest_valid env endpoint url 0 delay hurl]
  rfl

/-- C10's witness environment: a server that would answer if reached. -/
def envC10 : FetchEnv := ⟨false, fun _ => .response ⟨true, 200, .ok .null⟩⟩

/-- Witness for C10 at a valid URL and `retries = 0`. -/
theorem makeApiRequest_zero_attempts_witness :
    makeApiRequest envC10 "/download" "https://youtu.be/a" 0 1000 =
      (.undefined, 0, 0) :=
  makeApiRequest_zero_attempts envC10 "/download" "https://youtu.be/a" 1000 rfl

/-- C3's counterexample body: present title, `formats` present but the
empty sequence. -/
def infoC3 : JsValue := .obj [("title", .str "X"), ("formats", .arr [])]

/-- C3's counterexample environment: the metadata request succeeds with
that body on the first attempt. -/
def envC3 : FetchEnv := ⟨false, fun _ => .response ⟨true, 200, .ok infoC3⟩⟩

/-- C3 counterexample: the claim says a value considered valid contains a
non-empty formats sequence.  But `![]` is `false` in JS, so a body whose
`formats` is the empty array passes `!videoInfo.formats` and is returned as
the Video Info entity, although its formats sequence is empty. -/
theorem fetchVideoInfo_accepts_empty_formats :
    fetchVideoInfo envC3 "https://youtu.be/abc" = .ok infoC3
    ∧ getField infoC3 "formats" = .arr [] := ⟨rfl, rfl⟩

/-- C3 (amended): every value returned by `fetchVideoInfo` is truthy and
has truthy (hence present; for strings, non-empty) `title` and `formats`
fields — but the `formats` sequence itself may be empty, its length is not
checked; and every parsed body that is falsy or lacks a truthy `title` or
`formats` is rejected with the missing-fields `ValidationError`. -/
theorem fetchVideoInfo_shape_validation (env : FetchEnv) (url : String) :
    (∀ v, fetchVideoInfo env url = .ok v →
      truthy v = true ∧ truthy (getField v "title") = true
        ∧ truthy (getField v "formats") = true)
    ∧ (∀ r rest v,
        makeApiRequest env "/infoVideo" url 3 1000 = (.success r, rest) →
        r.body = .ok v →
        (truthy v = false ∨ truthy (getField v "title") = false
          ∨ truthy (getField v "formats") = false) →
        fetchVideoInfo env url =
          .error (.validationError
            "Invalid video info data received from server. Missing required fields.")) := by
  constructor
  · intro v hv
    unfold fetchVideoInfo at hv
    cases hm : (makeApiRequest env "/infoVideo" url 3 1000).1 with
    | undefined => rw [hm] at hv; exact Except.noConfusion hv
    | failure e => rw [hm] at hv; exact Except.noConfusion hv
    | success r =>
      rw [hm] at hv
      cases hb : r.body with
      | error m => simp only [hb] at hv; exact Except.noConfusion hv
      | ok vi =>
        simp only [hb] at hv
        by_cases hc : truthy vi = false ∨ truthy (getField vi "title") = false
          ∨ truthy (getField vi "formats") = false
        · rw [if_pos hc] at hv
          exact Except.noConfusion hv
        · rw [if_neg hc] at hv
          obtain rfl : vi = v := Except.ok.inj hv
          push_neg at hc
          obtain ⟨h1, h2, h3⟩ := hc
          refine ⟨?_, ?_, ?_⟩ <;> [revert h1; revert h2; revert h3] <;>
            [cases truthy vi; cases truthy (getField vi "title");
             cases truthy (getField vi "formats")] <;> simp
  · intro r rest v hm hb hbad
    have hm1 : (makeApiRequest env "/infoVideo" url 3 1000).1 =
        RunOutcome.success r := by rw [hm]
    unfold fetchVideoInfo
    rw [hm1]
    simp only [hb]
    rw [if_pos hbad]
    rfl

/-- C3's witness body: truthy title and a (non-empty) formats array. -/
def infoC3W : JsValue :=
  .obj [("title", .str "T"), ("formats", .arr [.obj [("quality", .str "720p")]])]

/-- C3's witness environment: the metadata request succeeds with that body. -/
def envC3W : FetchEnv := ⟨false, fun _ => .response ⟨true, 200, .ok infoC3W⟩⟩

/-- Witness for C3 (amended): a value actually returned by `fetchVideoInfo`
has truthy title and formats fields. -/
theorem fetchVideoInfo_shape_validation_witness :
    truthy infoC3W = true ∧ truthy (getField infoC3W "title") = true
      ∧ truthy (getField infoC3W "formats") = true :=
  (fetchVideoInfo_shape_validation envC3W "https://youtu.be/abc").1 infoC3W rfl

/-- C4: error surfacing of `fetchVideoInfo`: an underlying `ApiError` with
status 404 or 400 surfaces as `ValidationError("Video not found or invalid
URL.")`; an `ApiError` of any other status, a `NetworkError` and a
cancellation (`AbortError`) all surface unchanged, with matching status and
message. -/
theorem fetchVideoInfo_error_remap (env : FetchEnv) (url : String)
    (e : JsError)
    (hf : (makeApiRequest env "/infoVideo" url 3 1000).1 = RunOutcome.failure e) :
    (∀ s m, e = .apiError s m → s = 404 ∨ s = 400 →
      fetchVideoInfo env url =
        .error (.validationError "Video not found or invalid URL."))
    ∧ (∀ s m, e = .apiError s m → ¬(s = 404 ∨ s = 400) →
      fetchVideoInfo env url = .error (.apiError s m))
    ∧ (∀ m, e = .networkError m →
      fetchVideoInfo env url = .error (.networkError m))
    ∧ (∀ m, e = .abortError m →
      fetchVideoInfo env url = .error (.abortError m)) := by
  have hunf : fetchVideoInfo env url = .error (remapInfoError e) := by
    unfold fetchVideoInfo
    rw [hf]
  refine ⟨?_, ?_, ?_, ?_⟩
  · rintro s m rfl hs
    rw [hunf]
    rcases hs with rfl | rfl <;> simp [remapInfoError]
  · rintro s m rfl hs
    rw [hunf]
    simp only [remapInfoError]
    rw [if_neg hs]
  · rintro m rfl
    rw [hunf]
    rfl
  · rintro m rfl
    rw [hunf]
    rfl

/-- C4's witness environment: every attempt's response is a 404 with a
parsable error body. -/
def envC4 : FetchEnv :=
  ⟨false, fun _ => .response ⟨false, 404, .ok (.obj [("message", .str "not found")])⟩⟩

/-- Witness for C4: an underlying `ApiError(404, "not found")` surfaces as
`ValidationError("Video not found or invalid URL.")`. -/
theorem fetchVideoInfo_error_remap_witness :
    fetchVideoInfo envC4 "https://youtu.be/v" =
      .error (.validationError "Video not found or invalid URL.") :=
  (fetchVideoInfo_error_remap envC4 "https://youtu.be/v"
    (.apiError 404 (.str "not found")) rfl).1 404 (.str "not found")
    rfl (Or.inl rfl)

/-- C8's counterexample response: a 500 whose error body has a present but
empty `message` field. -/
def respC8 : Response := ⟨false, 500, .ok (.obj [("message", .str "")])⟩

/-- C8's counterexample environment: the fetch resolves with that
response. -/
def envC8 : FetchEnv := ⟨false, fun _ => .response respC8⟩

/-- C8 counterexample: the claim says the `ApiError` message is the parsed
body's `message` field whenever it is present.  With body
`{"message": ""}` the field is present, yet
`errorData?.message || "Unknown API error"` discards the falsy empty
string: the attempt fails with `ApiError(500, "Unknown API error")`, not
with the present message `""`. -/
theorem api_error_fallback_on_present_empty_message :
    attemptResult envC8 1 = .error (.apiError 500 (.str "Unknown API error"))
    ∧ getField (errorDataOf respC8) "message" = .str ""
    ∧ ¬(JsValue.str "Unknown API error" = .str "") :=
  ⟨rfl, rfl, fun h => by injection h with h'; exact absurd h' (by decide)⟩

/-- C8 (amended): on a response whose status indicates failure the attempt
fails with `ApiError(status, m)`, where `m` is the parsed body's `message`
field when that field is present and truthy, and the fallback
`"Unknown API error"` otherwise — including an absent field, a present but
falsy field (such as `""`), and an unparsable body, whose parse failure is
tolerated by substituting no message (`null`). -/
theorem attempt_api_error_message (env : FetchEnv) (k : Nat) (r : Response)
    (hout : env.outcome k = FetchOutcome.response r) (hok : r.ok = false) :
    attemptResult env k = .error (apiErrorOf r)
    ∧ (truthy (optChainField (errorDataOf r) "message") = true →
        apiErrorOf r =
          .apiError r.status (optChainField (errorDataOf r) "message"))
    ∧ (truthy (optChainField (errorDataOf r) "message") = false →
        apiErrorOf r = .apiError r.status (.str "Unknown API error"))
    ∧ (∀ m, r.body = .error m →
        apiErrorOf r = .apiError r.status (.str "Unknown API error")) := by
  refine ⟨?_, ?_, ?_, ?_⟩
  · simp [attemptResult, hout, hok]
  · intro ht
    simp [apiErrorOf, jsOr, ht]
  · intro ht
    simp [apiErrorOf, jsOr, ht]
  · intro m hb
    have hnull : errorDataOf r = .null := by simp [errorDataOf, hb]
    simp [apiErrorOf, hnull, optChainField, jsOr, truthy]

/-- C8's witness response: a 503 whose error body carries a truthy
message. -/
def respC8W : Response := ⟨false, 503, .ok (.obj [("message", .str "service down")])⟩

/-- C8's witness environment. -/
def envC8W : FetchEnv := ⟨false, fun _ => .response respC8W⟩

/-- Witness for C8 (amended): a failing response with a truthy message
yields an `ApiError` carrying exactly that message. -/
theorem attempt_api_error_message_witness :
    attemptResult envC8W 1 = .error (apiErrorOf respC8W)
    ∧ apiErrorOf respC8W =
        .apiError respC8W.status (optChainField (errorDataOf respC8W) "message") := by
  have h := attempt_api_error_message envC8W 1 respC8W rfl rfl
  exact ⟨h.1, h.2.1 rfl⟩
